import Mathlib

/-!
Verification of the trash-detection ingestion and aggregation service
(`main.py` / `model.py`). The relational store is embedded as lists of row
records; SQLAlchemy queries become list traversals with exact inner-join
multiplicity; `one_or_none` becomes an `Except`-valued lookup that errors on
multiple matches; timestamps are integer seconds and dates integer day
numbers.
-/

namespace TrashAPI

/-- Row of the `TrashCan` table (`model.py`). -/
structure TrashCanRow where
  trashcan_id : Nat
  trashcan_name : Option String
  trashcan_capacity : Option Int
  trashcan_city : Option String
  address_detail : Option String
  trashcan_latitude : Option Rat
  trashcan_longitude : Option Rat
  is_online : Bool
  last_connected_at : Option Int
  is_deleted : Bool
deriving DecidableEq, Repr

/-- Row of the `WasteType` table. -/
structure WasteTypeRow where
  waste_type_id : Nat
  type_name : String
deriving DecidableEq, Repr

/-- Row of the `Detection` table; `detected_at` is seconds since epoch. -/
structure DetectionRow where
  detection_id : Nat
  trashcan_id : Nat
  image_name : Option String
  image_path : Option String
  detected_at : Int
  object_count : Int
deriving DecidableEq, Repr

/-- Row of the `Detection_detail` table. -/
structure DetectionDetailRow where
  detail_id : Nat
  detection_id : Nat
  waste_type_id : Nat
  confidence : Rat
  bbox_info : Rat × Rat × Rat × Rat
deriving DecidableEq, Repr

/-- Row of the `DailyStats` table; `stats_date` is an epoch day number. -/
structure DailyStatsRow where
  stats_id : Nat
  stats_date : Int
  trashcan_city : Option String
  waste_type_id : Nat
  detection_count : Nat
deriving DecidableEq, Repr

/-- The whole relational store, with autoincrement counters. -/
structure Store where
  trashcans : List TrashCanRow
  wasteTypes : List WasteTypeRow
  detections : List DetectionRow
  details : List DetectionDetailRow
  dailyStats : List DailyStatsRow
  nextTrashCanId : Nat
  nextWasteTypeId : Nat
  nextDetectionId : Nat
  nextDetailId : Nat
  nextStatsId : Nat
deriving DecidableEq, Repr

/-- SQLAlchemy `Query.one_or_none`: `none` on no match, the row on a unique
match, and an error (`MultipleResultsFound`) on several matches. -/
def one_or_none {α : Type} (l : List α) (p : α → Bool) : Except Unit (Option α) :=
  match l.filter p with
  | [] => .ok none
  | [a] => .ok (some a)
  | _ => .error ()

/-- `date(detected_at)`: epoch day number of a timestamp in seconds. -/
def dateOf (t : Int) : Int :=
  Int.ediv t 86400

/-- Count of `DetectionDetail` rows joined (with SQL inner-join multiplicity)
to the `Detection` rows satisfying `p`; this is
`count(DetectionDetail.detail_id)` over
`Detection JOIN DetectionDetail ON detection_id` filtered by `p`. -/
def detailJoinCount (s : Store) (p : DetectionRow → Bool) : Nat :=
  (s.details.map
    (fun dd => (s.detections.filter
      (fun d => d.detection_id == dd.detection_id && p d)).length)).sum

/-- First-occurrence deduplication with an accumulator of already-seen keys. -/
def dedupKeysAux {α : Type} [DecidableEq α] (seen : List α) : List α → List α
  | [] => []
  | k :: ks =>
    if k ∈ seen then dedupKeysAux seen ks
    else k :: dedupKeysAux (k :: seen) ks

/-- First-occurrence deduplication, used to model SQL `GROUP BY` keys. -/
def dedupKeys {α : Type} [DecidableEq α] (l : List α) : List α :=
  dedupKeysAux [] l

/-- Number of occurrences of `k` in `l` (the per-group `count(*)`). -/
def countEq {α : Type} [DecidableEq α] (l : List α) (k : α) : Nat :=
  (l.filter (fun x => decide (x = k))).length

/-- SQL `GROUP BY` with `count(*)`: one `(key, count)` pair per distinct key. -/
def groupCounts {α : Type} [DecidableEq α] (rows : List α) : List (α × Nat) :=
  (dedupKeys rows).map (fun k => (k, countEq rows k))

/-- The joined `(city, waste_type_id)` rows of the refresher query: base table
`TrashCan`, joined to `Detection` on `trashcan_id` and to `DetectionDetail` on
`detection_id`, filtered to `date(detected_at) == target_date`
(`refresh_daily_stats`, main.py lines 182-189). -/
def refreshJoinRows (s : Store) (target_date : Int) : List (Option String × Nat) :=
  s.trashcans.flatMap (fun tc =>
    (s.detections.filter (fun det =>
        det.trashcan_id == tc.trashcan_id && decide (dateOf det.detected_at = target_date))).flatMap
      (fun det =>
        (s.details.filter (fun dd => dd.detection_id == det.detection_id)).map
          (fun dd => (tc.trashcan_city, dd.waste_type_id))))

/-- Predicate of the `DailyStats` composite-key lookup in `upsert_daily_stats`. -/
def statsKeyMatch (sd : Int) (city : Option String) (wt : Nat) (r : DailyStatsRow) : Bool :=
  decide (r.stats_date = sd) && decide (r.trashcan_city = city) && decide (r.waste_type_id = wt)

/-- `upsert_daily_stats` (main.py lines 151-177): look up the row for
`(stats_date, trashcan_city, waste_type_id)` with `one_or_none`; overwrite its
count if present, insert a new row otherwise. -/
def upsert_daily_stats (stats : List DailyStatsRow) (nid : Nat) (sd : Int)
    (city : Option String) (wt : Nat) (cnt : Nat) :
    Except Unit (List DailyStatsRow × Nat) :=
  match stats.filter (statsKeyMatch sd city wt) with
  | [] => .ok (stats ++ [⟨nid, sd, city, wt, cnt⟩], nid + 1)
  | [_] => .ok
      (stats.map (fun r =>
        if statsKeyMatch sd city wt r then { r with detection_count := cnt } else r), nid)
  | _ => .error ()

/-- The upsert loop of `refresh_daily_stats` over the grouped rows. -/
def applyUpserts (sd : Int) :
    List DailyStatsRow → Nat → List ((Option String × Nat) × Nat) →
    Except Unit (List DailyStatsRow × Nat)
  | stats, nid, [] => .ok (stats, nid)
  | stats, nid, ((city, wt), cnt) :: gs =>
    match upsert_daily_stats stats nid sd city wt cnt with
    | .error e => .error e
    | .ok (stats1, nid1) => applyUpserts sd stats1 nid1 gs

/-- `refresh_daily_stats` (main.py lines 180-192): group the lagged day's raw
joined rows by `(city, waste_type_id)`, upsert each count into `DailyStats`,
and commit the cycle as one transaction (an error commits nothing). -/
def refresh_daily_stats (s : Store) (target_date : Int) : Except Unit Store :=
  match applyUpserts target_date s.dailyStats s.nextStatsId
      (groupCounts (refreshJoinRows s target_date)) with
  | .error e => .error e
  | .ok (stats, nid) => .ok { s with dailyStats := stats, nextStatsId := nid }

/-- The shared occupancy classifier `compute_status` (defined identically in
`list_trashcans`, `trashcan_summary` and `collection_needed`): absent count is
`unknown`, otherwise the first matching threshold branch wins top-down. -/
def compute_status (full_threshold medium_threshold : Int) (current : Option Int) : String :=
  match current with
  | none => "unknown"
  | some c =>
    if c ≥ full_threshold then "full"
    else if c ≥ medium_threshold then "medium"
    else "low"

/-- A freshly inserted `TrashCan` row as built by `get_or_create_trashcan` for
an unknown explicit id: synthesized name, SQLAlchemy column defaults
(`is_online=False`, `is_deleted=False`), every other column NULL. -/
def newTrashCanRow (tid : Nat) : TrashCanRow :=
  { trashcan_id := tid
    trashcan_name := some ("TrashCan " ++ toString tid)
    trashcan_capacity := none
    trashcan_city := none
    address_detail := none
    trashcan_latitude := none
    trashcan_longitude := none
    is_online := false
    last_connected_at := none
    is_deleted := false }

/-- The `"UNKNOWN"` sentinel row created for id-less ingests. -/
def unknownTrashCanRow (tid : Nat) : TrashCanRow :=
  { trashcan_id := tid
    trashcan_name := some "UNKNOWN"
    trashcan_capacity := none
    trashcan_city := some "UNKNOWN"
    address_detail := none
    trashcan_latitude := none
    trashcan_longitude := none
    is_online := false
    last_connected_at := none
    is_deleted := false }

/-- The explicit-id path of `get_or_create_trashcan` (main.py lines 118-128):
return the existing row, clearing its soft-delete flag in place if set, or
insert a placeholder row under the given id. -/
def get_or_create_trashcan_by_id (s : Store) (tid : Nat) :
    Except Unit (TrashCanRow × Store) :=
  match one_or_none s.trashcans (fun t => t.trashcan_id == tid) with
  | .error e => .error e
  | .ok (some t) =>
    if t.is_deleted then
      .ok ({ t with is_deleted := false },
        { s with trashcans := s.trashcans.map (fun x =>
            if x.trashcan_id == tid then { x with is_deleted := false } else x) })
    else .ok (t, s)
  | .ok none =>
    .ok (newTrashCanRow tid, { s with trashcans := s.trashcans ++ [newTrashCanRow tid] })

/-- The id-less path of `get_or_create_trashcan` (main.py lines 129-135):
find or create the `"UNKNOWN"` sentinel row. -/
def get_or_create_trashcan_unknown (s : Store) : Except Unit (TrashCanRow × Store) :=
  match one_or_none s.trashcans (fun t => t.trashcan_name == some "UNKNOWN") with
  | .error e => .error e
  | .ok (some t) => .ok (t, s)
  | .ok none =>
    .ok (unknownTrashCanRow s.nextTrashCanId,
      { s with
        trashcans := s.trashcans ++ [unknownTrashCanRow s.nextTrashCanId]
        nextTrashCanId := s.nextTrashCanId + 1 })

/-- `get_or_create_trashcan` (main.py lines 117-135). -/
def get_or_create_trashcan (s : Store) (tid? : Option Nat) :
    Except Unit (TrashCanRow × Store) :=
  match tid? with
  | some tid => get_or_create_trashcan_by_id s tid
  | none => get_or_create_trashcan_unknown s

/-- `get_or_create_waste_type` (main.py lines 138-145): find by id
(`class_id`), else insert a row under that id with the given class name. -/
def get_or_create_waste_type (s : Store) (class_id : Nat) (class_name : String) :
    Except Unit (WasteTypeRow × Store) :=
  match one_or_none s.wasteTypes (fun w => w.waste_type_id == class_id) with
  | .error e => .error e
  | .ok (some w) => .ok (w, s)
  | .ok none =>
    .ok (⟨class_id, class_name⟩, { s with wasteTypes := s.wasteTypes ++ [⟨class_id, class_name⟩] })

/-- One object of the ingest payload (`PredictionSchema`). -/
structure PredictionIn where
  class_id : Nat
  class_name : String
  confidence : Rat
  box : Rat × Rat × Rat × Rat
deriving DecidableEq, Repr

/-- The normalized ingest payload (`DetectionIn`). -/
structure DetectionPayload where
  trashcan_id : Option Nat
  image_name : Option String
  image_path : Option String
  detected_at : Option Int
  total_objects : Option Int
  predictions : List PredictionIn
deriving DecidableEq, Repr

/-- The per-prediction loop of `create_detection`: resolve each waste type and
append one `DetectionDetail` row. -/
def addDetails (s : Store) (did : Nat) : List PredictionIn → Except Unit Store
  | [] => .ok s
  | pr :: rest =>
    match get_or_create_waste_type s pr.class_id pr.class_name with
    | .error e => .error e
    | .ok (w, s1) =>
      addDetails
        { s1 with
          details := s1.details ++ [⟨s1.nextDetailId, did, w.waste_type_id, pr.confidence, pr.box⟩]
          nextDetailId := s1.nextDetailId + 1 }
        did rest

/-- `detected_at = payload.detected_at or datetime.utcnow()` (main.py 238). -/
def detectionTime (now : Int) (p : DetectionPayload) : Int :=
  match p.detected_at with
  | some t => t
  | none => now

/-- `total_objects`, defaulted to `len(payload.predictions)` when absent
(main.py lines 240-242); a present value is stored as-is. -/
def detectionTotal (p : DetectionPayload) : Int :=
  match p.total_objects with
  | some n => n
  | none => (p.predictions.length : Int)

/-- The `Detection` row written by `create_detection` (main.py lines 247-253). -/
def mkDetectionRow (s1 : Store) (tc : TrashCanRow) (now : Int) (p : DetectionPayload) :
    DetectionRow :=
  ⟨s1.nextDetectionId, tc.trashcan_id, p.image_name, p.image_path,
    detectionTime now p, detectionTotal p⟩

/-- `create_detection` (main.py lines 233-275): default `detected_at` to the
current time and `total_objects` to `len(predictions)`, resolve the trash can,
store one `Detection` row and one `DetectionDetail` row per prediction, and
return the new detection id with the stored count. -/
def create_detection (s : Store) (now : Int) (p : DetectionPayload) :
    Except Unit (Store × Nat × Int) :=
  match get_or_create_trashcan s p.trashcan_id with
  | .error e => .error e
  | .ok (tc, s1) =>
    match addDetails
        { s1 with
          detections := s1.detections ++ [mkDetectionRow s1 tc now p]
          nextDetectionId := s1.nextDetectionId + 1 }
        s1.nextDetectionId p.predictions with
    | .error e => .error e
    | .ok s3 => .ok (s3, s1.nextDetectionId, detectionTotal p)

/-- Structured result of the delete/restore style endpoints. -/
structure MutationResult where
  ok : Bool
  reason : Option String
  already_deleted : Option Bool
  soft_deleted : Option Bool
deriving DecidableEq, Repr

/-- `delete_trashcan` (main.py lines 480-492): soft delete — set `is_deleted`
and force `is_online := false`; already-deleted rows report
`already_deleted` and nothing changes. -/
def delete_trashcan (s : Store) (tid : Nat) : Except Unit (MutationResult × Store) :=
  match one_or_none s.trashcans (fun t => t.trashcan_id == tid) with
  | .error e => .error e
  | .ok none => .ok (⟨false, some "not_found", none, none⟩, s)
  | .ok (some t) =>
    if t.is_deleted then .ok (⟨true, none, some true, none⟩, s)
    else
      .ok (⟨true, none, none, some true⟩,
        { s with trashcans := s.trashcans.map (fun x =>
            if x.trashcan_id == tid then { x with is_deleted := true, is_online := false } else x) })

/-- Result of `create_waste_type`: the id and name echoed back. -/
structure WasteTypeResult where
  waste_type_id : Nat
  type_name : String
deriving DecidableEq, Repr

/-- `create_waste_type` (main.py lines 660-671): find by name and echo the
existing row, else insert a new row with an autoincrement id. -/
def create_waste_type (s : Store) (type_name : String) :
    Except Unit (WasteTypeResult × Store) :=
  match one_or_none s.wasteTypes (fun w => w.type_name == type_name) with
  | .error e => .error e
  | .ok (some w) => .ok (⟨w.waste_type_id, w.type_name⟩, s)
  | .ok none =>
    .ok (⟨s.nextWasteTypeId, type_name⟩,
      { s with
        wasteTypes := s.wasteTypes ++ [⟨s.nextWasteTypeId, type_name⟩]
        nextWasteTypeId := s.nextWasteTypeId + 1 })

/-- `delete_waste_type` (main.py lines 674-685): reject a missing id with
`not_found`, reject a type still referenced by any `DetectionDetail` row with
`in_use` (no partial deletion), and otherwise delete the row. -/
def delete_waste_type (s : Store) (wid : Nat) : Except Unit (MutationResult × Store) :=
  match one_or_none s.wasteTypes (fun w => w.waste_type_id == wid) with
  | .error e => .error e
  | .ok none => .ok (⟨false, some "not_found", none, none⟩, s)
  | .ok (some w) =>
    if s.details.any (fun dd => dd.waste_type_id == w.waste_type_id) then
      .ok (⟨false, some "in_use", none, none⟩, s)
    else
      .ok (⟨true, none, none, none⟩,
        { s with wasteTypes := s.wasteTypes.filter (fun x => !(x.waste_type_id == wid)) })

/-- Python truthiness of an optional string filter: `None` and `""` are falsy. -/
def pyTruthy (o : Option String) : Option String :=
  match o with
  | none => none
  | some st => if st = "" then none else some st

/-- Python `x or d` on an optional integer (`None` and `0` are falsy). -/
def pyOrInt (v : Option Int) (d : Int) : Int :=
  match v with
  | none => d
  | some x => if x = 0 then d else x

/-- Python substring containment `needle in hay` (on character lists). -/
def strContains (hay needle : String) : Bool :=
  (List.range (hay.length + 1)).any
    (fun i => List.isPrefixOf needle.toList (hay.toList.drop i))

/-- The city filter of the catalog/locations loops:
`city.lower() not in row.trashcan_city.lower()` skips the row, and a row with
no city never matches a truthy filter. -/
def matchesCity (city : Option String) (row : TrashCanRow) : Bool :=
  match pyTruthy city with
  | none => true
  | some c =>
    match row.trashcan_city with
    | none => false
    | some rc => strContains rc.toLower c.toLower

/-- The name filter of the catalog/locations loops. -/
def matchesName (name : Option String) (row : TrashCanRow) : Bool :=
  match pyTruthy name with
  | none => true
  | some n =>
    match row.trashcan_name with
    | none => false
    | some rn => strContains rn.toLower n.toLower

/-- The `is_online` filter of the catalog loop. -/
def matchesOnline (onf : Option Bool) (row : TrashCanRow) : Bool :=
  match onf with
  | none => true
  | some b => row.is_online == b

/-- `status_order.get(status, 9)`: the shared status rank dictionary. -/
def statusOrder (st : String) : Nat :=
  if st = "full" then 0
  else if st = "medium" then 1
  else if st = "low" then 2
  else if st = "unknown" then 3
  else 9

/-- Ascending lexicographic comparison on a `(Bool, Int)` Python sort key
(`False < True`). -/
def boolIntLe (a b : Bool × Int) : Bool :=
  (!a.1 && b.1) || (a.1 == b.1 && decide (a.2 ≤ b.2))

/-- Ascending lexicographic comparison on a `(Nat, Int)` Python sort key. -/
def natIntLe (a b : Nat × Int) : Bool :=
  decide (a.1 < b.1) || (a.1 == b.1 && decide (a.2 ≤ b.2))

/-- One item of the `/trashcans` catalog response. -/
structure ListItem where
  trashcan_id : Nat
  trashcan_name : Option String
  total_objects : Nat
  current_objects : Nat
  capacity_remaining : Option Int
  trashcan_city : Option String
  address_detail : Option String
  is_online : Bool
  last_connected_at : Option Int
  status : String
deriving DecidableEq, Repr

/-- Sort key of catalog mode `capacity_remaining_desc`:
`(cr is None, -(cr or 0))`, ascending — nulls last, numeric values descending. -/
def capDescKey (a : ListItem) : Bool × Int :=
  (a.capacity_remaining.isNone, -(pyOrInt a.capacity_remaining 0))

/-- Sort key of catalog mode `capacity_remaining_asc`:
`(cr is None, cr or 0)`, ascending — nulls last, numeric values ascending. -/
def capAscKey (a : ListItem) : Bool × Int :=
  (a.capacity_remaining.isNone, pyOrInt a.capacity_remaining 0)

/-- Nulls-last descending order on optional capacities: a null never precedes
a numeric value, and numeric values are non-increasing. -/
def capDescOk (a b : Option Int) : Prop :=
  match a, b with
  | none, none => True
  | none, some _ => False
  | some _, none => True
  | some x, some y => y ≤ x

/-- Nulls-last ascending order on optional capacities. -/
def capAscOk (a b : Option Int) : Prop :=
  match a, b with
  | none, none => True
  | none, some _ => False
  | some _, none => True
  | some x, some y => x ≤ y

/-- The six-way sort dispatch of `list_trashcans` (main.py lines 373-389);
Python `list.sort` is stable, embedded as the stable `List.mergeSort`. -/
def sortListItems (sort : String) (items : List ListItem) : List ListItem :=
  if sort = "total_asc" then
    items.mergeSort (fun a b => decide (a.total_objects ≤ b.total_objects))
  else if sort = "capacity_remaining_desc" then
    items.mergeSort (fun a b => boolIntLe (capDescKey a) (capDescKey b))
  else if sort = "capacity_remaining_asc" then
    items.mergeSort (fun a b => boolIntLe (capAscKey a) (capAscKey b))
  else if sort = "status_desc" then
    items.mergeSort (fun a b =>
      natIntLe (statusOrder a.status, -(pyOrInt (some (a.current_objects : Int)) 0))
        (statusOrder b.status, -(pyOrInt (some (b.current_objects : Int)) 0)))
  else if sort = "status_asc" then
    items.mergeSort (fun a b =>
      natIntLe (statusOrder a.status, pyOrInt (some (a.current_objects : Int)) 0)
        (statusOrder b.status, pyOrInt (some (b.current_objects : Int)) 0))
  else
    items.mergeSort (fun a b => decide (-(a.total_objects : Int) ≤ -(b.total_objects : Int)))

/-- All-time detail count of one trash can
(the grouped `total_rows` of `list_trashcans`, with `.get(id, 0)`). -/
def totalCount (s : Store) (tid : Nat) : Nat :=
  detailJoinCount s (fun d => d.trashcan_id == tid)

/-- Windowed detail count of one trash can
(the grouped `window_rows` / `volume_rows` queries, with default 0). -/
def windowedCount (s : Store) (cutoff : Int) (tid : Nat) : Nat :=
  detailJoinCount s (fun d => d.trashcan_id == tid && decide (cutoff ≤ d.detected_at))

/-- `volume_map.get(row.trashcan_id)` of `collection_needed`: a group-by map
lookup with no default, absent exactly when no joined row fell in the window. -/
def windowedLookup (s : Store) (cutoff : Int) (tid : Nat) : Option Nat :=
  let c := windowedCount s cutoff tid
  if c = 0 then none else some c

/-- The catalog item built for one non-deleted row that passed the filters
(the loop body of `list_trashcans`, main.py lines 346-372). -/
def listItemOf (s : Store) (cutoff : Int) (ft mt : Int) (row : TrashCanRow) : ListItem :=
  let current_objects := windowedCount s cutoff row.trashcan_id
  { trashcan_id := row.trashcan_id
    trashcan_name := row.trashcan_name
    total_objects := totalCount s row.trashcan_id
    current_objects := current_objects
    capacity_remaining := row.trashcan_capacity.map (fun c => c - (current_objects : Int))
    trashcan_city := row.trashcan_city
    address_detail := row.address_detail
    is_online := row.is_online
    last_connected_at := row.last_connected_at
    status := compute_status ft mt (some (current_objects : Int)) }

/-- `list_trashcans` before pagination (main.py lines 297-389): non-deleted
rows, online/city/name filters, per-row item construction, six-way sort. -/
def list_trashcans_items (s : Store) (now : Int) (window_days : Nat) (ft mt : Int)
    (sort : String) (onf : Option Bool) (city name : Option String) : List ListItem :=
  let cutoff := now - (window_days : Int) * 86400
  let items := (s.trashcans.filter (fun r => !r.is_deleted)).filterMap (fun row =>
    if matchesOnline onf row && matchesCity city row && matchesName name row then
      some (listItemOf s cutoff ft mt row)
    else none)
  sortListItems sort items

/-- `list_trashcans` (main.py line 390): the sorted items, sliced
`items[offset : offset + limit]`. -/
def list_trashcans (s : Store) (now : Int) (offset limit : Nat) (window_days : Nat)
    (ft mt : Int) (sort : String) (onf : Option Bool) (city name : Option String) :
    List ListItem :=
  ((list_trashcans_items s now window_days ft mt sort onf city name).drop offset).take limit

/-- One item of the `/trashcans/locations` response. -/
structure LocationItem where
  trashcan_id : Nat
  trashcan_name : Option String
  trashcan_city : Option String
  address_detail : Option String
  trashcan_latitude : Rat
  trashcan_longitude : Rat
deriving DecidableEq, Repr

/-- `trashcan_locations` (main.py lines 393-429): non-deleted rows with both
coordinates set, city/name filters, sliced pagination. -/
def trashcan_locations (s : Store) (offset limit : Nat) (city name : Option String) :
    List LocationItem :=
  let items := s.trashcans.filterMap (fun row =>
    match row.trashcan_latitude, row.trashcan_longitude with
    | some lat, some lon =>
      if !row.is_deleted && matchesCity city row && matchesName name row then
        some ⟨row.trashcan_id, row.trashcan_name, row.trashcan_city, row.address_detail, lat, lon⟩
      else none
    | _, _ => none)
  (items.drop offset).take limit

/-- The `/trashcans/{id}/summary` response body. -/
structure SummaryView where
  trashcan_id : Nat
  trashcan_name : Option String
  trashcan_city : Option String
  address_detail : Option String
  is_online : Bool
  last_connected_at : Option Int
  total_objects : Nat
  current_objects : Nat
  capacity_remaining : Option Int
  status : String
  by_type : List (String × Nat)
deriving DecidableEq, Repr

/-- The joined `type_name` rows of a per-trashcan `by_type` aggregation:
`WasteType JOIN DetectionDetail JOIN Detection` restricted by `p`. -/
def typeNameRows (s : Store) (p : DetectionRow → Bool) : List String :=
  s.wasteTypes.flatMap (fun w =>
    (s.details.filter (fun dd => dd.waste_type_id == w.waste_type_id)).flatMap (fun dd =>
      (s.detections.filter (fun d => d.detection_id == dd.detection_id && p d)).map
        (fun _ => w.type_name)))

/-- `trashcan_summary` (main.py lines 509-576): `none` models the
`not_found` result for a missing or soft-deleted id. -/
def trashcan_summary (s : Store) (now : Int) (window_days : Nat) (ft mt : Int)
    (tid : Nat) : Except Unit (Option SummaryView) :=
  match one_or_none s.trashcans (fun t => t.trashcan_id == tid && !t.is_deleted) with
  | .error e => .error e
  | .ok none => .ok none
  | .ok (some t) =>
    let total_objects := totalCount s tid
    let cutoff := now - (window_days : Int) * 86400
    let current_objects := windowedCount s cutoff tid
    .ok (some
      { trashcan_id := t.trashcan_id
        trashcan_name := t.trashcan_name
        trashcan_city := t.trashcan_city
        address_detail := t.address_detail
        is_online := t.is_online
        last_connected_at := t.last_connected_at
        total_objects := total_objects
        current_objects := current_objects
        capacity_remaining := t.trashcan_capacity.map (fun c => c - (current_objects : Int))
        status := compute_status ft mt (some (current_objects : Int))
        by_type := groupCounts (typeNameRows s (fun d => d.trashcan_id == tid)) })

/-- One item of the `/trashcans/collection-needed` response. -/
structure CollectionItem where
  trashcan_id : Nat
  trashcan_name : Option String
  trashcan_city : Option String
  detection_count : Option Nat
  status : String
  window_days : Nat
  full_threshold : Int
  medium_threshold : Int
deriving DecidableEq, Repr

/-- The collection-priority item built for one non-deleted row (the loop body
of `collection_needed`, main.py lines 883-899). -/
def collectionItemOf (s : Store) (cutoff : Int) (window_days : Nat) (ft mt : Int)
    (row : TrashCanRow) : CollectionItem :=
  let current_volume := windowedLookup s cutoff row.trashcan_id
  { trashcan_id := row.trashcan_id
    trashcan_name := row.trashcan_name
    trashcan_city := row.trashcan_city
    detection_count := current_volume
    status := compute_status ft mt (current_volume.map (fun n => (n : Int)))
    window_days := window_days
    full_threshold := ft
    medium_threshold := mt }

/-- The two-way sort of `collection_needed` (main.py lines 901-910). -/
def sortCollectionItems (sort : String) (items : List CollectionItem) : List CollectionItem :=
  if sort = "count" then
    items.mergeSort (fun a b =>
      boolIntLe
        (a.detection_count.isNone, -(pyOrInt (a.detection_count.map (fun n => (n : Int))) 0))
        (b.detection_count.isNone, -(pyOrInt (b.detection_count.map (fun n => (n : Int))) 0)))
  else
    items.mergeSort (fun a b =>
      natIntLe
        (statusOrder a.status, -(pyOrInt (a.detection_count.map (fun n => (n : Int))) 0))
        (statusOrder b.status, -(pyOrInt (b.detection_count.map (fun n => (n : Int))) 0)))

/-- `collection_needed` (main.py lines 850-911): windowed counts per can,
classification, optional single-status filter, then status-rank or count sort. -/
def collection_needed (s : Store) (now : Int) (status_filter : Option String)
    (sort : String) (window_days : Nat) (ft mt : Int) : List CollectionItem :=
  let cutoff := now - (window_days : Int) * 86400
  let result := (s.trashcans.filter (fun r => !r.is_deleted)).filterMap (fun row =>
    let item := collectionItemOf s cutoff window_days ft mt row
    match pyTruthy status_filter with
    | some f => if item.status ≠ f then none else some item
    | none => some item)
  sortCollectionItems sort result

/-- The `/dashboard/summary` response body. -/
structure DashboardSummary where
  total_objects : Nat
  total_events : Nat
  by_type : List (String × Nat)
deriving DecidableEq, Repr

/-- The joined `type_name` rows of `WasteType JOIN DetectionDetail` with no
detection filter (the global `by_type` query). -/
def globalTypeNameRows (s : Store) : List String :=
  s.wasteTypes.flatMap (fun w =>
    (s.details.filter (fun dd => dd.waste_type_id == w.waste_type_id)).map
      (fun _ => w.type_name))

/-- `dashboard_summary` (main.py lines 708-724): all-time totals over the raw
tables — `count(detail_id)`, `count(detection_id)` and the per-type breakdown,
with no `TrashCan.is_deleted` filter anywhere. -/
def dashboard_summary (s : Store) : DashboardSummary :=
  { total_objects := s.details.length
    total_events := s.detections.length
    by_type := groupCounts (globalTypeNameRows s) }

/-- Hinnant civil-from-days: epoch day number to `(year, month, day)`. -/
def civilFromDays (z0 : Int) : Int × Int × Int :=
  let z := z0 + 719468
  let era := Int.ediv z 146097
  let doe := z - era * 146097
  let yoe := Int.ediv (doe - Int.ediv doe 1460 + Int.ediv doe 36524 - Int.ediv doe 146096) 365
  let y := yoe + era * 400
  let doy := doe - (365 * yoe + Int.ediv yoe 4 - Int.ediv yoe 100)
  let mp := Int.ediv (5 * doy + 2) 153
  let d := doy - Int.ediv (153 * mp + 2) 5 + 1
  let m := mp + (if mp < 10 then 3 else -9)
  (if m ≤ 2 then y + 1 else y, m, d)

/-- Hinnant days-from-civil: `(year, month, day)` to epoch day number. -/
def daysFromCivil (y0 m d : Int) : Int :=
  let y := if m ≤ 2 then y0 - 1 else y0
  let era := Int.ediv y 400
  let yoe := y - era * 400
  let doy := Int.ediv (153 * (m + (if m > 2 then -3 else 9)) + 2) 5 + d - 1
  let doe := yoe * 365 + Int.ediv yoe 4 - Int.ediv yoe 100 + doy
  era * 146097 + doe - 719468

/-- `today.replace(day=1)` on an epoch day number. -/
def monthFirst (t : Int) : Int :=
  match civilFromDays t with
  | (y, m, _) => daysFromCivil y m 1

/-- `date(today.year, 1, 1)` on an epoch day number. -/
def yearFirst (t : Int) : Int :=
  match civilFromDays t with
  | (y, _, _) => daysFromCivil y 1 1

/-- The `/dashboard/stats` response body (dates as epoch day numbers). -/
structure DashboardStats where
  period : String
  start_date : Int
  end_date : Int
  total_events : Nat
  total_objects : Nat
  by_type : List (String × Nat)
  by_city : List (Option String × Nat)
deriving DecidableEq, Repr

/-- The joined `trashcan_city` rows of the period `by_city` aggregation:
`TrashCan JOIN Detection JOIN DetectionDetail` restricted by `p`, again with
no `is_deleted` filter. -/
def cityRows (s : Store) (p : DetectionRow → Bool) : List (Option String) :=
  s.trashcans.flatMap (fun tc =>
    (s.detections.filter (fun det => det.trashcan_id == tc.trashcan_id && p det)).flatMap
      (fun det =>
        (s.details.filter (fun dd => dd.detection_id == det.detection_id)).map
          (fun _ => tc.trashcan_city)))

/-- `dashboard_stats` (main.py lines 782-847): resolve the date window
(`custom` when both bounds are given, else week/month/year ending today),
expand it to `[start 00:00:00, end 23:59:59]`, and compute the four windowed
aggregates over the raw tables. -/
def dashboard_stats (s : Store) (today : Int) (period : String)
    (start_date end_date : Option Int) : DashboardStats :=
  let resolved : Int × Int × String :=
    match start_date, end_date with
    | some sd, some ed => (sd, ed, "custom")
    | _, _ =>
      if period = "month" then (monthFirst today, today, period)
      else if period = "year" then (yearFirst today, today, period)
      else (today - 6, today, period)
  match resolved with
  | (start, stop, response_period) =>
    let start_dt := start * 86400
    let end_dt := stop * 86400 + 86399
    let inWindow := fun (d : DetectionRow) =>
      decide (start_dt ≤ d.detected_at) && decide (d.detected_at ≤ end_dt)
    { period := response_period
      start_date := start
      end_date := stop
      total_events := (s.detections.filter inWindow).length
      total_objects := detailJoinCount s inWindow
      by_type := groupCounts (typeNameRows s inWindow)
      by_city := groupCounts (cityRows s inWindow) }

/-! Concrete example rows and stores, used by witnesses and counterexamples. -/

/-- A plain registered trash can in Seoul. -/
def exCan : TrashCanRow :=
  { trashcan_id := 1
    trashcan_name := some "Alpha"
    trashcan_capacity := none
    trashcan_city := some "Seoul"
    address_detail := none
    trashcan_latitude := none
    trashcan_longitude := none
    is_online := false
    last_connected_at := none
    is_deleted := false }

/-- A store with one can, one detection on day 10 and one detail row. -/
def exStoreC1 : Store :=
  { trashcans := [exCan]
    wasteTypes := [⟨1, "Plastic"⟩]
    detections := [⟨1, 1, none, none, 10 * 86400 + 5, 1⟩]
    details := [⟨1, 1, 1, 1, (0, 0, 1, 1)⟩]
    dailyStats := []
    nextTrashCanId := 2
    nextWasteTypeId := 2
    nextDetectionId := 2
    nextDetailId := 2
    nextStatsId := 0 }

/-- `exStoreC1` after one refresh cycle for day 10. -/
def exStoreC1res : Store :=
  { exStoreC1 with
    dailyStats := [⟨0, 10, some "Seoul", 1, 1⟩]
    nextStatsId := 1 }

/-- A store whose single can is soft-deleted and has historical detections. -/
def exStoreDel : Store :=
  { exStoreC1 with trashcans := [{ exCan with is_deleted := true }] }

/-- A store with one waste type and no detail rows referencing it. -/
def exStoreWT : Store :=
  { trashcans := []
    wasteTypes := [⟨1, "Plastic"⟩]
    detections := []
    details := []
    dailyStats := []
    nextTrashCanId := 1
    nextWasteTypeId := 2
    nextDetectionId := 1
    nextDetailId := 1
    nextStatsId := 0 }

/-- A store with one active can and no detections at all. -/
def exStoreC3 : Store :=
  { trashcans := [exCan]
    wasteTypes := []
    detections := []
    details := []
    dailyStats := []
    nextTrashCanId := 2
    nextWasteTypeId := 1
    nextDetectionId := 1
    nextDetailId := 1
    nextStatsId := 0 }

/-- An ingest payload declaring 5 objects but carrying two predictions. -/
def exPayload : DetectionPayload :=
  { trashcan_id := some 3
    image_name := some "img.jpg"
    image_path := none
    detected_at := none
    total_objects := some 5
    predictions :=
      [⟨1, "Plastic", 1, (0, 0, 1, 1)⟩, ⟨1, "Plastic", 1, (0, 0, 2, 2)⟩] }

/-- The store produced by ingesting `exPayload` into `exStoreWT` at time 777. -/
def exStoreC6res : Store :=
  { trashcans := [newTrashCanRow 3]
    wasteTypes := [⟨1, "Plastic"⟩]
    detections := [⟨1, 3, some "img.jpg", none, 777, 5⟩]
    details := [⟨1, 1, 1, 1, (0, 0, 1, 1)⟩, ⟨2, 1, 1, 1, (0, 0, 2, 2)⟩]
    dailyStats := []
    nextTrashCanId := 1
    nextWasteTypeId := 2
    nextDetectionId := 2
    nextDetailId := 3
    nextStatsId := 0 }

end TrashAPI

namespace TrashAPI

/-! Helper lemmas about the store embedding. -/

theorem one_or_none_none_iff {α : Type} {l : List α} {p : α → Bool} :
    one_or_none l p = .ok none ↔ l.filter p = [] := by
  unfold one_or_none
  rcases hf : l.filter p with _ | ⟨a, _ | ⟨b, t⟩⟩ <;> simp

theorem one_or_none_some_iff {α : Type} {l : List α} {p : α → Bool} {a : α} :
    one_or_none l p = .ok (some a) ↔ l.filter p = [a] := by
  unfold one_or_none
  rcases hf : l.filter p with _ | ⟨x, _ | ⟨y, t⟩⟩ <;> simp

theorem mem_of_filter_eq_singleton {α : Type} {l : List α} {p : α → Bool} {a x : α}
    (hf : l.filter p = [a]) (hx : x ∈ l) (hpx : p x = true) : x = a := by
  have : x ∈ l.filter p := List.mem_filter.mpr ⟨hx, hpx⟩
  rw [hf] at this
  simpa using this

theorem statsKeyMatch_update {sd : Int} {city : Option String} {wt : Nat}
    {sd1 : Int} {city1 : Option String} {wt1 : Nat} {cnt : Nat} {r : DailyStatsRow} :
    statsKeyMatch sd city wt
        (if statsKeyMatch sd1 city1 wt1 r then { r with detection_count := cnt } else r) =
      statsKeyMatch sd city wt r := by
  by_cases hr : statsKeyMatch sd1 city1 wt1 r = true
  · simp only [hr, if_true]
    simp [statsKeyMatch]
  · simp only [Bool.not_eq_true] at hr
    simp [hr]

theorem upsert_filter_result {stats : List DailyStatsRow} {nid : Nat} {sd : Int}
    {city : Option String} {wt : Nat} {cnt : Nat} {stats1 : List DailyStatsRow} {nid1 : Nat}
    (h : upsert_daily_stats stats nid sd city wt cnt = .ok (stats1, nid1)) :
    ∃ r, stats1.filter (statsKeyMatch sd city wt) = [r] ∧ r.detection_count = cnt := by
  unfold upsert_daily_stats at h
  rcases hf : stats.filter (statsKeyMatch sd city wt) with _ | ⟨a, _ | ⟨b, t⟩⟩ <;> rw [hf] at h
  · simp only [Except.ok.injEq, Prod.mk.injEq] at h
    rcases h with ⟨h1, _⟩
    refine ⟨⟨nid, sd, city, wt, cnt⟩, ?_, rfl⟩
    rw [← h1, List.filter_append, hf]
    simp [statsKeyMatch]
  · simp only [Except.ok.injEq, Prod.mk.injEq] at h
    rcases h with ⟨h1, _⟩
    refine ⟨{ a with detection_count := cnt }, ?_, rfl⟩
    rw [← h1, List.filter_map]
    have hcong : stats.filter
        ((statsKeyMatch sd city wt) ∘
          (fun r => if statsKeyMatch sd city wt r then { r with detection_count := cnt } else r)) =
        stats.filter (statsKeyMatch sd city wt) := by
      apply List.filter_congr
      intro x _
      exact statsKeyMatch_update
    rw [hcong, hf]
    have ha : statsKeyMatch sd city wt a = true := by
      have : a ∈ stats.filter (statsKeyMatch sd city wt) := by rw [hf]; simp
      exact (List.mem_filter.mp this).2
    simp [ha]
  · exact absurd h (by simp)

theorem upsert_filter_frame {stats : List DailyStatsRow} {nid : Nat} {sd : Int}
    {city city1 : Option String} {wt wt1 : Nat} {cnt : Nat}
    {stats1 : List DailyStatsRow} {nid1 : Nat}
    (hne : (city1, wt1) ≠ (city, wt))
    (h : upsert_daily_stats stats nid sd city1 wt1 cnt = .ok (stats1, nid1)) :
    stats1.filter (statsKeyMatch sd city wt) = stats.filter (statsKeyMatch sd city wt) := by
  have hkey : ∀ r : DailyStatsRow, statsKeyMatch sd city1 wt1 r = true →
      statsKeyMatch sd city wt r = false := by
    intro r hr
    simp only [statsKeyMatch, Bool.and_eq_true, decide_eq_true_eq] at hr
    by_contra hc
    simp only [Bool.not_eq_false, statsKeyMatch, Bool.and_eq_true, decide_eq_true_eq] at hc
    exact hne (by rw [← hr.1.2, ← hr.2, ← hc.1.2, ← hc.2])
  unfold upsert_daily_stats at h
  rcases hf : stats.filter (statsKeyMatch sd city1 wt1) with _ | ⟨a, _ | ⟨b, t⟩⟩ <;> rw [hf] at h
  · simp only [Except.ok.injEq, Prod.mk.injEq] at h
    rcases h with ⟨h1, _⟩
    rw [← h1, List.filter_append]
    have : statsKeyMatch sd city wt (⟨nid, sd, city1, wt1, cnt⟩ : DailyStatsRow) = false := by
      apply hkey
      simp [statsKeyMatch]
    simp [this]
  · simp only [Except.ok.injEq, Prod.mk.injEq] at h
    rcases h with ⟨h1, _⟩
    rw [← h1, List.filter_map]
    have hcong : stats.filter
        ((statsKeyMatch sd city wt) ∘
          (fun r => if statsKeyMatch sd city1 wt1 r then { r with detection_count := cnt } else r)) =
        stats.filter (statsKeyMatch sd city wt) := by
      apply List.filter_congr
      intro x _
      exact statsKeyMatch_update
    rw [hcong]
    have hid : (stats.filter (statsKeyMatch sd city wt)).map
        (fun r => if statsKeyMatch sd city1 wt1 r then { r with detection_count := cnt } else r) =
        (stats.filter (statsKeyMatch sd city wt)).map id := by
      apply List.map_congr_left
      intro x hx
      have hpx : statsKeyMatch sd city wt x = true := (List.mem_filter.mp hx).2
      have hx1 : statsKeyMatch sd city1 wt1 x = false := by
        by_contra hc
        simp only [Bool.not_eq_false] at hc
        rw [hkey x hc] at hpx
        exact absurd hpx (by simp)
      simp [hx1]
    rw [hid, List.map_id]
  · exact absurd h (by simp)

theorem upsert_self {stats : List DailyStatsRow} {nid : Nat} {sd : Int}
    {city : Option String} {wt : Nat} {cnt : Nat} {r : DailyStatsRow}
    (hf : stats.filter (statsKeyMatch sd city wt) = [r]) (hc : r.detection_count = cnt) :
    upsert_daily_stats stats nid sd city wt cnt = .ok (stats, nid) := by
  unfold upsert_daily_stats
  rw [hf]
  have hmap : stats.map (fun x =>
      if statsKeyMatch sd city wt x then { x with detection_count := cnt } else x) = stats := by
    have heq : stats.map (fun x =>
        if statsKeyMatch sd city wt x then { x with detection_count := cnt } else x) =
        stats.map id := by
      apply List.map_congr_left
      intro x hx
      by_cases hpx : statsKeyMatch sd city wt x = true
      · have hxa : x = r := mem_of_filter_eq_singleton hf hx hpx
        subst hxa
        simp [hpx, ← hc]
      · simp only [Bool.not_eq_true] at hpx
        simp [hpx]
    rw [heq, List.map_id]
  rw [hmap]

theorem applyUpserts_filter_frame {sd : Int} {city : Option String} {wt : Nat} :
    ∀ (gs : List ((Option String × Nat) × Nat)) (stats : List DailyStatsRow) (nid : Nat)
      (stats1 : List DailyStatsRow) (nid1 : Nat),
      (∀ g ∈ gs, g.1 ≠ (city, wt)) →
      applyUpserts sd stats nid gs = .ok (stats1, nid1) →
      stats1.filter (statsKeyMatch sd city wt) = stats.filter (statsKeyMatch sd city wt)
  | [], stats, nid, stats1, nid1, _, h => by
    simp only [applyUpserts, Except.ok.injEq, Prod.mk.injEq] at h
    rw [h.1]
  | ((city1, wt1), cnt) :: gs, stats, nid, stats1, nid1, hne, h => by
    simp only [applyUpserts] at h
    rcases hu : upsert_daily_stats stats nid sd city1 wt1 cnt with e | ⟨statsA, nidA⟩ <;>
      rw [hu] at h
    · exact absurd h (by simp)
    · have h1 := applyUpserts_filter_frame gs statsA nidA stats1 nid1
        (fun g hg => hne g (List.mem_cons_of_mem _ hg)) h
      have h2 := upsert_filter_frame (hne ((city1, wt1), cnt) (List.mem_cons_self _ _)) hu
      rw [h1, h2]

theorem applyUpserts_idem {sd : Int} :
    ∀ (gs : List ((Option String × Nat) × Nat)) (stats : List DailyStatsRow) (nid : Nat)
      (stats1 : List DailyStatsRow) (nid1 : Nat),
      gs.Pairwise (fun a b => a.1 ≠ b.1) →
      applyUpserts sd stats nid gs = .ok (stats1, nid1) →
      applyUpserts sd stats1 nid1 gs = .ok (stats1, nid1)
  | [], stats, nid, stats1, nid1, _, h => by
    simp only [applyUpserts, Except.ok.injEq, Prod.mk.injEq] at h ⊢
  | ((city1, wt1), cnt) :: gs, stats, nid, stats1, nid1, hpw, h => by
    simp only [applyUpserts] at h ⊢
    rcases hu : upsert_daily_stats stats nid sd city1 wt1 cnt with e | ⟨statsA, nidA⟩ <;>
      rw [hu] at h
    · exact absurd h (by simp)
    · rcases List.pairwise_cons.mp hpw with ⟨hhead, htail⟩
      obtain ⟨r, hrf, hrc⟩ := upsert_filter_result hu
      have hframe : stats1.filter (statsKeyMatch sd city1 wt1) =
          statsA.filter (statsKeyMatch sd city1 wt1) := by
        apply applyUpserts_filter_frame gs statsA nidA stats1 nid1 ?_ h
        intro g hg
        exact (hhead g hg).symm
      have hself : upsert_daily_stats stats1 nid1 sd city1 wt1 cnt = .ok (stats1, nid1) :=
        upsert_self (by rw [hframe, hrf]) hrc
      rw [hself]
      exact applyUpserts_idem gs statsA nidA stats1 nid1 htail h

theorem dedupKeysAux_not_mem_seen_and_nodup {α : Type} [DecidableEq α] :
    ∀ (l seen : List α),
      (∀ x ∈ dedupKeysAux seen l, x ∉ seen) ∧ (dedupKeysAux seen l).Nodup
  | [], seen => by simp [dedupKeysAux]
  | k :: ks, seen => by
    by_cases hk : k ∈ seen
    · simpa [dedupKeysAux, hk] using dedupKeysAux_not_mem_seen_and_nodup ks seen
    · obtain ⟨ih1, ih2⟩ := dedupKeysAux_not_mem_seen_and_nodup ks (k :: seen)
      simp only [dedupKeysAux, hk, if_false]
      constructor
      · intro x hx
        rcases List.mem_cons.mp hx with h1 | h1
        · exact h1 ▸ hk
        · intro hxs
          exact ih1 x h1 (List.mem_cons_of_mem _ hxs)
      · refine List.nodup_cons.mpr ⟨?_, ih2⟩
        intro hmem
        exact ih1 k hmem (List.mem_cons_self _ _)

theorem nodup_dedupKeys {α : Type} [DecidableEq α] (l : List α) :
    (dedupKeys l).Nodup :=
  (dedupKeysAux_not_mem_seen_and_nodup l []).2

theorem groupCounts_keys_pairwise {α : Type} [DecidableEq α] (rows : List α) :
    (groupCounts rows).Pairwise (fun a b => a.1 ≠ b.1) := by
  unfold groupCounts
  have hnd : (dedupKeys rows).Nodup := nodup_dedupKeys rows
  exact List.Pairwise.map _ (fun a b hab => by simpa using hab) hnd

/-- C1: the daily stats refresh is idempotent. For every store state and
every target date, if one refresh cycle for that date succeeds and produces
store `s2`, then running the cycle again on `s2` (no raw
Detection/DetectionDetail/TrashCan rows having changed) succeeds and leaves
the entire store — in particular the `DailyStats` table — exactly as it was:
counts are overwritten in place and no duplicate row for an existing
`(date, city, waste_type_id)` key is inserted. -/
theorem refresh_daily_stats_idem (s s2 : Store) (d : Int)
    (h : refresh_daily_stats s d = .ok s2) :
    refresh_daily_stats s2 d = .ok s2 := by
  unfold refresh_daily_stats at h
  rcases hap : applyUpserts d s.dailyStats s.nextStatsId
      (groupCounts (refreshJoinRows s d)) with e | ⟨stats, nid⟩ <;> rw [hap] at h
  · exact absurd h (by simp)
  · simp only [Except.ok.injEq] at h
    subst h
    have hidem := applyUpserts_idem (groupCounts (refreshJoinRows s d))
      s.dailyStats s.nextStatsId stats nid (groupCounts_keys_pairwise _) hap
    show (match applyUpserts d stats nid (groupCounts (refreshJoinRows s d)) with
      | Except.error e => (Except.error e : Except Unit Store)
      | Except.ok (stats2, nid2) => Except.ok { s with dailyStats := stats2, nextStatsId := nid2 }) =
      Except.ok { s with dailyStats := stats, nextStatsId := nid }
    rw [hidem]

/-- Witness for C1: a concrete store whose refresh for day 10 inserts one
`DailyStats` row, after which a second refresh changes nothing. -/
theorem refresh_daily_stats_idem_witness :
    refresh_daily_stats exStoreC1 10 = .ok exStoreC1res ∧
    refresh_daily_stats exStoreC1res 10 = .ok exStoreC1res :=
  ⟨by rfl, refresh_daily_stats_idem exStoreC1 exStoreC1res 10 (by rfl)⟩

/-- C2: the occupancy classifier maps an absent count to `unknown`; otherwise
the first matching branch top-down wins (`full` when the count reaches the
full threshold, else `medium` when it reaches the medium threshold, else
`low`), with the stated boundary cases at thresholds `(50, 20)`; the result is
defined for every threshold pair, ordered or not. -/
theorem compute_status_spec (ft mt c : Int) :
    compute_status ft mt none = "unknown" ∧
    (c ≥ ft → compute_status ft mt (some c) = "full") ∧
    (c < ft → c ≥ mt → compute_status ft mt (some c) = "medium") ∧
    (c < ft → c < mt → compute_status ft mt (some c) = "low") ∧
    compute_status 50 20 (some 20) = "medium" ∧
    compute_status 50 20 (some 50) = "full" ∧
    compute_status 50 20 (some 0) = "low" := by
  refine ⟨rfl, ?_, ?_, ?_, by decide, by decide, by decide⟩
  · intro h
    simp [compute_status, h]
  · intro h1 h2
    simp [compute_status, not_le.mpr h1, h2]
  · intro h1 h2
    simp [compute_status, not_le.mpr h1, not_le.mpr h2]

/-- Witness for C2: the branch implications applied at an inverted threshold
pair (full below medium), where the top-down first match still decides. -/
theorem compute_status_spec_witness :
    (30 : Int) ≥ 10 ∧ compute_status 10 20 (some 30) = "full" ∧
    (15 : Int) < 50 ∧ (15 : Int) < 20 ∧ compute_status 50 20 (some 15) = "low" :=
  ⟨by decide, (compute_status_spec 10 20 30).2.1 (by decide),
   by decide, by decide, (compute_status_spec 50 20 15).2.2.2.1 (by decide) (by decide)⟩

/-- C5: revive-on-ingest. If the explicit-id lookup finds a soft-deleted row,
entity resolution returns that same row with its soft-delete flag cleared,
clears the flag in the stored row, and adds no row (the trashcan table keeps
its length); if no row exists under the id, a new row is inserted whose name
is the synthesized `"TrashCan {id}"`. -/
theorem get_or_create_trashcan_revive (s : Store) (tid : Nat) :
    (∀ t, one_or_none s.trashcans (fun x => x.trashcan_id == tid) = .ok (some t) →
      t.is_deleted = true →
      get_or_create_trashcan s (some tid) =
        .ok ({ t with is_deleted := false },
          { s with trashcans := s.trashcans.map (fun x =>
              if x.trashcan_id == tid then { x with is_deleted := false } else x) }) ∧
      (s.trashcans.map (fun x =>
          if x.trashcan_id == tid then { x with is_deleted := false } else x)).length =
        s.trashcans.length) ∧
    (one_or_none s.trashcans (fun x => x.trashcan_id == tid) = .ok none →
      get_or_create_trashcan s (some tid) =
        .ok (newTrashCanRow tid, { s with trashcans := s.trashcans ++ [newTrashCanRow tid] }) ∧
      (newTrashCanRow tid).trashcan_name = some ("TrashCan " ++ toString tid)) := by
  constructor
  · intro t ht hdel
    refine ⟨?_, by simp⟩
    simp only [get_or_create_trashcan, get_or_create_trashcan_by_id]
    rw [ht]
    simp [hdel]
  · intro hnone
    refine ⟨?_, rfl⟩
    simp only [get_or_create_trashcan, get_or_create_trashcan_by_id]
    rw [hnone]

/-- Witness for C5: reviving the deleted can of `exStoreDel` and creating a
fresh placeholder can under the unused id 7. -/
theorem get_or_create_trashcan_revive_witness :
    get_or_create_trashcan exStoreDel (some 1) =
      .ok ({ exCan with is_deleted := false },
        { exStoreDel with trashcans := exStoreDel.trashcans.map (fun x =>
            if x.trashcan_id == 1 then { x with is_deleted := false } else x) }) ∧
    get_or_create_trashcan exStoreWT (some 7) =
      .ok (newTrashCanRow 7, { exStoreWT with trashcans := exStoreWT.trashcans ++ [newTrashCanRow 7] }) := by
  constructor
  · have h := ((get_or_create_trashcan_revive exStoreDel 1).1
      { exCan with is_deleted := true } (by rfl) (by rfl)).1
    exact h
  · exact ((get_or_create_trashcan_revive exStoreWT 7).2 (by rfl)).1

/-- C9: soft-deleting an existing, not-yet-deleted trash can reports
`soft_deleted`, sets exactly `is_deleted := true` and `is_online := false` on
the row with that id, and changes nothing else: rows with other ids are kept
as they were and every other table of the store is untouched. -/
theorem delete_trashcan_frame (s : Store) (tid : Nat) (t : TrashCanRow)
    (ht : one_or_none s.trashcans (fun x => x.trashcan_id == tid) = .ok (some t))
    (hdel : t.is_deleted = false) :
    ∃ s2, delete_trashcan s tid = .ok (⟨true, none, none, some true⟩, s2) ∧
      s2.trashcans = s.trashcans.map (fun x =>
        if x.trashcan_id == tid then { x with is_deleted := true, is_online := false } else x) ∧
      (∀ x ∈ s.trashcans, x.trashcan_id ≠ tid → x ∈ s2.trashcans) ∧
      s2.wasteTypes = s.wasteTypes ∧ s2.detections = s.detections ∧
      s2.details = s.details ∧ s2.dailyStats = s.dailyStats := by
  refine ⟨{ s with trashcans := s.trashcans.map (fun x =>
      if x.trashcan_id == tid then { x with is_deleted := true, is_online := false } else x) },
    ?_, rfl, ?_, rfl, rfl, rfl, rfl⟩
  · unfold delete_trashcan
    rw [ht]
    simp [hdel]
  · intro x hx hne
    have : (if x.trashcan_id == tid
        then { x with is_deleted := true, is_online := false } else x) = x := by
      simp [hne]
    exact this ▸ List.mem_map_of_mem _ hx

/-- Witness for C9: soft-deleting can 1 of `exStoreC1`. -/
theorem delete_trashcan_frame_witness :
    ∃ s2, delete_trashcan exStoreC1 1 = .ok (⟨true, none, none, some true⟩, s2) ∧
      s2.trashcans = exStoreC1.trashcans.map (fun x =>
        if x.trashcan_id == 1 then { x with is_deleted := true, is_online := false } else x) ∧
      (∀ x ∈ exStoreC1.trashcans, x.trashcan_id ≠ 1 → x ∈ s2.trashcans) ∧
      s2.wasteTypes = exStoreC1.wasteTypes ∧ s2.detections = exStoreC1.detections ∧
      s2.details = exStoreC1.details ∧ s2.dailyStats = exStoreC1.dailyStats :=
  delete_trashcan_frame exStoreC1 1 exCan (by rfl) (by rfl)

/-- C7: the referential delete guard of waste types. A type referenced by at
least one detail row is rejected with `in_use` and the store is returned
unchanged; a missing id is rejected with `not_found` (also unchanged); only an
existing, unreferenced row is removed. -/
theorem delete_waste_type_guard (s : Store) (wid : Nat) :
    (∀ w, one_or_none s.wasteTypes (fun x => x.waste_type_id == wid) = .ok (some w) →
      s.details.any (fun dd => dd.waste_type_id == w.waste_type_id) = true →
      delete_waste_type s wid = .ok (⟨false, some "in_use", none, none⟩, s)) ∧
    (one_or_none s.wasteTypes (fun x => x.waste_type_id == wid) = .ok none →
      delete_waste_type s wid = .ok (⟨false, some "not_found", none, none⟩, s)) ∧
    (∀ w, one_or_none s.wasteTypes (fun x => x.waste_type_id == wid) = .ok (some w) →
      s.details.any (fun dd => dd.waste_type_id == w.waste_type_id) = false →
      delete_waste_type s wid = .ok (⟨true, none, none, none⟩,
        { s with wasteTypes := s.wasteTypes.filter (fun x => !(x.waste_type_id == wid)) })) := by
  refine ⟨?_, ?_, ?_⟩
  · intro w hw hany
    unfold delete_waste_type
    rw [hw]
    simp [hany]
  · intro hnone
    unfold delete_waste_type
    rw [hnone]
  · intro w hw hany
    unfold delete_waste_type
    rw [hw]
    simp [hany]

/-- Witness for C7: in `exStoreC1` the type `Plastic` is referenced by a
detail row, so deletion is rejected in-use with the store unchanged; id 9 is
absent, so deletion reports not-found; in `exStoreWT`, where nothing
references `Plastic`, the row is removed. -/
theorem delete_waste_type_guard_witness :
    delete_waste_type exStoreC1 1 = .ok (⟨false, some "in_use", none, none⟩, exStoreC1) ∧
    delete_waste_type exStoreC1 9 = .ok (⟨false, some "not_found", none, none⟩, exStoreC1) ∧
    delete_waste_type exStoreWT 1 = .ok (⟨true, none, none, none⟩,
      { exStoreWT with wasteTypes := exStoreWT.wasteTypes.filter (fun x => !(x.waste_type_id == 1)) }) :=
  ⟨(delete_waste_type_guard exStoreC1 1).1 ⟨1, "Plastic"⟩ (by rfl) (by rfl),
   (delete_waste_type_guard exStoreC1 9).2.1 (by rfl),
   (delete_waste_type_guard exStoreWT 1).2.2 ⟨1, "Plastic"⟩ (by rfl) (by rfl)⟩

theorem create_waste_type_existing (s : Store) (nm : String) (w : WasteTypeRow)
    (hw : one_or_none s.wasteTypes (fun x => x.type_name == nm) = .ok (some w)) :
    create_waste_type s nm = .ok (⟨w.waste_type_id, w.type_name⟩, s) := by
  unfold create_waste_type
  rw [hw]

/-- C10: registration of waste types is idempotent by name. If a row with the
requested name exists, its id and name are echoed back and the store is
unchanged; and after any successful registration, registering the same name
again returns the same result and leaves the store unchanged — so two
successive registrations return the same `waste_type_id`. -/
theorem create_waste_type_idem (s : Store) (nm : String) :
    (∀ w, one_or_none s.wasteTypes (fun x => x.type_name == nm) = .ok (some w) →
      create_waste_type s nm = .ok (⟨w.waste_type_id, w.type_name⟩, s)) ∧
    (∀ r s1, create_waste_type s nm = .ok (r, s1) →
      create_waste_type s1 nm = .ok (r, s1)) := by
  refine ⟨fun w hw => create_waste_type_existing s nm w hw, ?_⟩
  intro r s1 h
  unfold create_waste_type at h
  rcases hoon : one_or_none s.wasteTypes (fun x => x.type_name == nm) with e | ow <;>
    rw [hoon] at h
  · exact absurd h (by simp)
  · rcases ow with _ | w
    · simp only [Except.ok.injEq, Prod.mk.injEq] at h
      rcases h with ⟨hr, hs1⟩
      subst hs1
      subst hr
      have hfe : s.wasteTypes.filter (fun x => x.type_name == nm) = [] :=
        one_or_none_none_iff.mp hoon
      have hfind : one_or_none (s.wasteTypes ++ [⟨s.nextWasteTypeId, nm⟩])
          (fun x => x.type_name == nm) = .ok (some ⟨s.nextWasteTypeId, nm⟩) := by
        apply one_or_none_some_iff.mpr
        rw [List.filter_append, hfe]
        simp
      exact create_waste_type_existing _ nm ⟨s.nextWasteTypeId, nm⟩ hfind
    · simp only [Except.ok.injEq, Prod.mk.injEq] at h
      rcases h with ⟨hr, hs1⟩
      subst hs1
      subst hr
      exact create_waste_type_existing s nm w hoon

/-- Witness for C10: registering `Plastic` on a store that already has it
echoes the existing id 1 and changes nothing; a fresh registration of `Can`
followed by a second one returns the same id and the same store. -/
theorem create_waste_type_idem_witness :
    create_waste_type exStoreWT "Plastic" = .ok (⟨1, "Plastic"⟩, exStoreWT) ∧
    create_waste_type ({ exStoreWT with
        wasteTypes := exStoreWT.wasteTypes ++ [⟨2, "Can"⟩], nextWasteTypeId := 3 } : Store)
      "Can" =
      .ok (⟨2, "Can"⟩, { exStoreWT with
        wasteTypes := exStoreWT.wasteTypes ++ [⟨2, "Can"⟩], nextWasteTypeId := 3 }) :=
  ⟨(create_waste_type_idem exStoreWT "Plastic").1 ⟨1, "Plastic"⟩ (by rfl),
   (create_waste_type_idem exStoreWT "Can").2 ⟨2, "Can"⟩
     ({ exStoreWT with
        wasteTypes := exStoreWT.wasteTypes ++ [⟨2, "Can"⟩], nextWasteTypeId := 3 }) (by rfl)⟩

theorem get_or_create_trashcan_raw_frame {s : Store} {tid? : Option Nat}
    {tc : TrashCanRow} {s1 : Store}
    (h : get_or_create_trashcan s tid? = .ok (tc, s1)) :
    s1.detections = s.detections ∧ s1.details = s.details := by
  rcases tid? with _ | tid
  · simp only [get_or_create_trashcan] at h
    unfold get_or_create_trashcan_unknown at h
    rcases hoon : one_or_none s.trashcans (fun t => t.trashcan_name == some "UNKNOWN")
      with e | ow <;> rw [hoon] at h
    · exact absurd h (by simp)
    · rcases ow with _ | t <;> simp only [Except.ok.injEq, Prod.mk.injEq] at h <;>
        rw [← h.2] <;> exact ⟨rfl, rfl⟩
  · simp only [get_or_create_trashcan] at h
    unfold get_or_create_trashcan_by_id at h
    rcases hoon : one_or_none s.trashcans (fun t => t.trashcan_id == tid)
      with e | ow <;> rw [hoon] at h
    · exact absurd h (by simp)
    · rcases ow with _ | t
      · simp only [Except.ok.injEq, Prod.mk.injEq] at h
        rw [← h.2]
        exact ⟨rfl, rfl⟩
      · by_cases hd : t.is_deleted <;> simp only [hd, if_true, if_false,
          Except.ok.injEq, Prod.mk.injEq, Bool.false_eq_true] at h <;>
          rw [← h.2] <;> exact ⟨rfl, rfl⟩

theorem get_or_create_waste_type_frame {s : Store} {cid : Nat} {cname : String}
    {w : WasteTypeRow} {s1 : Store}
    (h : get_or_create_waste_type s cid cname = .ok (w, s1)) :
    s1.detections = s.detections ∧ s1.details = s.details ∧
      s1.nextDetailId = s.nextDetailId := by
  unfold get_or_create_waste_type at h
  rcases hoon : one_or_none s.wasteTypes (fun x => x.waste_type_id == cid)
    with e | ow <;> rw [hoon] at h
  · exact absurd h (by simp)
  · rcases ow with _ | t <;> simp only [Except.ok.injEq, Prod.mk.injEq] at h <;>
      rw [← h.2] <;> exact ⟨rfl, rfl, rfl⟩

theorem addDetails_frame :
    ∀ (preds : List PredictionIn) (s : Store) (did : Nat) (s3 : Store),
      addDetails s did preds = .ok s3 →
      s3.detections = s.detections ∧
      s3.details.length = s.details.length + preds.length
  | [], s, did, s3, h => by
    simp only [addDetails, Except.ok.injEq] at h
    rw [← h]
    exact ⟨rfl, rfl⟩
  | pr :: rest, s, did, s3, h => by
    simp only [addDetails] at h
    rcases hg : get_or_create_waste_type s pr.class_id pr.class_name
      with e | ⟨w, s1⟩ <;> rw [hg] at h
    · exact absurd h (by simp)
    · obtain ⟨hdet, hlen⟩ := addDetails_frame rest _ did s3 h
      obtain ⟨hd1, hl1, _⟩ := get_or_create_waste_type_frame hg
      constructor
      · rw [hdet]
        exact hd1
      · rw [hlen]
        simp only [List.length_append, List.length_cons, List.length_nil, hl1]
        omega

/-- C6: ingestion defaults. On every successful ingest, the stored detection
row's `detected_at` is the payload's timestamp, or the current time when it is
absent; the stored `object_count` (echoed as the returned total) is the
declared `total_objects` stored as-is when present, or `len(predictions)` when
absent; and exactly `len(predictions)` detail rows are written, with no
validation tying the stored count to that number. -/
theorem create_detection_defaults (s : Store) (now : Int) (p : DetectionPayload)
    (s3 : Store) (did : Nat) (tot : Int)
    (h : create_detection s now p = .ok (s3, did, tot)) :
    (p.total_objects = none → tot = (p.predictions.length : Int)) ∧
    (∀ n, p.total_objects = some n → tot = n) ∧
    (∃ det ∈ s3.detections, det.detection_id = did ∧
      det.object_count = tot ∧
      (p.detected_at = none → det.detected_at = now) ∧
      (∀ t0, p.detected_at = some t0 → det.detected_at = t0)) ∧
    s3.details.length = s.details.length + p.predictions.length := by
  unfold create_detection at h
  rcases hg : get_or_create_trashcan s p.trashcan_id with e | ⟨tc, s1⟩ <;> rw [hg] at h
  · exact absurd h (by simp)
  · simp only [] at h
    rcases had : addDetails
        { s1 with
          detections := s1.detections ++ [mkDetectionRow s1 tc now p]
          nextDetectionId := s1.nextDetectionId + 1 }
        s1.nextDetectionId p.predictions with e | s3' <;> rw [had] at h
    · exact absurd h (by simp)
    · simp only [Except.ok.injEq, Prod.mk.injEq] at h
      obtain ⟨hs3, hdid, htot⟩ := h
      subst hs3
      subst hdid
      subst htot
      obtain ⟨hdet, hlen⟩ := addDetails_frame p.predictions _ _ _ had
      obtain ⟨hrd, hrl⟩ := get_or_create_trashcan_raw_frame hg
      refine ⟨?_, ?_, ?_, ?_⟩
      · intro hnone
        simp [detectionTotal, hnone]
      · intro n hsome
        simp [detectionTotal, hsome]
      · refine ⟨mkDetectionRow s1 tc now p, ?_, rfl, rfl, ?_, ?_⟩
        · rw [hdet]
          simp
        · intro hnone
          simp [mkDetectionRow, detectionTime, hnone]
        · intro t0 hsome
          simp [mkDetectionRow, detectionTime, hsome]
      · rw [hlen]
        simp only [hrl]

/-- Witness for C6: an ingest with a declared total of 5 but two predictions
stores count 5 and writes exactly two detail rows. -/
theorem create_detection_defaults_witness :
    create_detection exStoreWT 777 exPayload = .ok (exStoreC6res, 1, 5) ∧
    (∀ n, exPayload.total_objects = some n → (5 : Int) = n) ∧
    exStoreC6res.details.length = exStoreWT.details.length + exPayload.predictions.length := by
  have hc : create_detection exStoreWT 777 exPayload = .ok (exStoreC6res, 1, 5) := by rfl
  obtain ⟨h1, h2, h3, h4⟩ := create_detection_defaults exStoreWT 777 exPayload exStoreC6res 1 5 hc
  exact ⟨hc, h2, h4⟩

theorem boolIntLe_trans (a b c : Bool × Int) (hab : boolIntLe a b) (hbc : boolIntLe b c) :
    boolIntLe a c := by
  rcases a with ⟨a1, a2⟩
  rcases b with ⟨b1, b2⟩
  rcases c with ⟨c1, c2⟩
  cases a1 <;> cases b1 <;> cases c1 <;>
    simp_all [boolIntLe] <;> omega

theorem boolIntLe_total (a b : Bool × Int) : boolIntLe a b || boolIntLe b a := by
  rcases a with ⟨a1, a2⟩
  rcases b with ⟨b1, b2⟩
  cases a1 <;> cases b1 <;> simp_all [boolIntLe] <;> omega

theorem pyOrInt_some_zero (x : Int) : pyOrInt (some x) 0 = x := by
  show (if x = 0 then (0 : Int) else x) = x
  split
  · omega
  · rfl

theorem capDescKey_le_imp {a b : ListItem}
    (h : boolIntLe (capDescKey a) (capDescKey b) = true) :
    capDescOk a.capacity_remaining b.capacity_remaining := by
  rcases ha : a.capacity_remaining with _ | x <;> rcases hb : b.capacity_remaining with _ | y <;>
    simp only [capDescOk]
  · simp [boolIntLe, capDescKey, ha, hb] at h
  · have hx := pyOrInt_some_zero x
    have hy := pyOrInt_some_zero y
    simp only [boolIntLe, capDescKey, ha, hb, Option.isNone_some, Option.isNone_none,
      Bool.not_false, Bool.and_true, Bool.false_and, Bool.and_false, Bool.false_or,
      beq_self_eq_true, Bool.true_and, decide_eq_true_eq, hx, hy] at h
    omega

theorem capAscKey_le_imp {a b : ListItem}
    (h : boolIntLe (capAscKey a) (capAscKey b) = true) :
    capAscOk a.capacity_remaining b.capacity_remaining := by
  rcases ha : a.capacity_remaining with _ | x <;> rcases hb : b.capacity_remaining with _ | y <;>
    simp only [capAscOk]
  · simp [boolIntLe, capAscKey, ha, hb] at h
  · have hx := pyOrInt_some_zero x
    have hy := pyOrInt_some_zero y
    simp only [boolIntLe, capAscKey, ha, hb, Option.isNone_some, Option.isNone_none,
      Bool.not_false, Bool.and_true, Bool.false_and, Bool.and_false, Bool.false_or,
      beq_self_eq_true, Bool.true_and, decide_eq_true_eq, hx, hy] at h
    omega

theorem sortListItems_capdesc (items : List ListItem) :
    sortListItems "capacity_remaining_desc" items =
      items.mergeSort (fun a b => boolIntLe (capDescKey a) (capDescKey b)) := by
  rfl

theorem sortListItems_capasc (items : List ListItem) :
    sortListItems "capacity_remaining_asc" items =
      items.mergeSort (fun a b => boolIntLe (capAscKey a) (capAscKey b)) := by
  rfl

/-- C8: nulls-last capacity sorting. Under catalog sort
`capacity_remaining_desc` (and likewise `capacity_remaining_asc`), every
returned page is pairwise ordered so that a can with no capacity set never
precedes a can with a numeric `capacity_remaining`, and cans with numeric
values appear in descending (resp. ascending) order of `capacity_remaining`,
whatever the magnitudes or signs of those values. -/
theorem capacity_sort_nulls_last (s : Store) (now : Int) (offset limit window_days : Nat)
    (ft mt : Int) (onf : Option Bool) (city name : Option String) :
    (list_trashcans s now offset limit window_days ft mt
        "capacity_remaining_desc" onf city name).Pairwise
      (fun a b => capDescOk a.capacity_remaining b.capacity_remaining) ∧
    (list_trashcans s now offset limit window_days ft mt
        "capacity_remaining_asc" onf city name).Pairwise
      (fun a b => capAscOk a.capacity_remaining b.capacity_remaining) := by
  constructor
  · have hsorted := @List.sorted_mergeSort _
      (fun a b => boolIntLe (capDescKey a) (capDescKey b))
      (fun a b c => boolIntLe_trans _ _ _) (fun a b => boolIntLe_total _ _)
      ((s.trashcans.filter (fun r => !r.is_deleted)).filterMap (fun row =>
        if matchesOnline onf row && matchesCity city row && matchesName name row then
          some (listItemOf s (now - (window_days : Int) * 86400) ft mt row)
        else none))
    have hpw := hsorted.imp (fun hab => capDescKey_le_imp hab)
    unfold list_trashcans
    have heq : list_trashcans_items s now window_days ft mt
        "capacity_remaining_desc" onf city name =
        ((s.trashcans.filter (fun r => !r.is_deleted)).filterMap (fun row =>
          if matchesOnline onf row && matchesCity city row && matchesName name row then
            some (listItemOf s (now - (window_days : Int) * 86400) ft mt row)
          else none)).mergeSort (fun a b => boolIntLe (capDescKey a) (capDescKey b)) := by
      unfold list_trashcans_items
      exact sortListItems_capdesc _
    rw [heq]
    exact List.Pairwise.sublist
      ((List.take_sublist limit _).trans (List.drop_sublist offset _)) hpw
  · have hsorted := @List.sorted_mergeSort _
      (fun a b => boolIntLe (capAscKey a) (capAscKey b))
      (fun a b c => boolIntLe_trans _ _ _) (fun a b => boolIntLe_total _ _)
      ((s.trashcans.filter (fun r => !r.is_deleted)).filterMap (fun row =>
        if matchesOnline onf row && matchesCity city row && matchesName name row then
          some (listItemOf s (now - (window_days : Int) * 86400) ft mt row)
        else none))
    have hpw := hsorted.imp (fun hab => capAscKey_le_imp hab)
    unfold list_trashcans
    have heq : list_trashcans_items s now window_days ft mt
        "capacity_remaining_asc" onf city name =
        ((s.trashcans.filter (fun r => !r.is_deleted)).filterMap (fun row =>
          if matchesOnline onf row && matchesCity city row && matchesName name row then
            some (listItemOf s (now - (window_days : Int) * 86400) ft mt row)
          else none)).mergeSort (fun a b => boolIntLe (capAscKey a) (capAscKey b)) := by
      unfold list_trashcans_items
      exact sortListItems_capasc _
    rw [heq]
    exact List.Pairwise.sublist
      ((List.take_sublist limit _).trans (List.drop_sublist offset _)) hpw

theorem mem_sortListItems {x : ListItem} {sort : String} {items : List ListItem} :
    x ∈ sortListItems sort items ↔ x ∈ items := by
  unfold sortListItems
  split_ifs <;> exact List.mem_mergeSort

theorem mem_sortCollectionItems {x : CollectionItem} {sort : String}
    {items : List CollectionItem} :
    x ∈ sortCollectionItems sort items ↔ x ∈ items := by
  unfold sortCollectionItems
  split_ifs <;> exact List.mem_mergeSort

theorem sortListItems_singleton (sort : String) (x : ListItem) :
    sortListItems sort [x] = [x] := by
  unfold sortListItems
  split_ifs <;> simp

theorem sortCollectionItems_singleton (sort : String) (x : CollectionItem) :
    sortCollectionItems sort [x] = [x] := by
  unfold sortCollectionItems
  split_ifs <;> simp

theorem compute_status_some_ne_unknown (ft mt c : Int) :
    compute_status ft mt (some c) ≠ "unknown" := by
  show (if c ≥ ft then "full" else if c ≥ mt then "medium" else "low") ≠ "unknown"
  split_ifs <;> decide

/-- Counterexample to C3 as stated: in a store with one active can and no
detections at all, the catalog view `list_trashcans` assigns that can status
`"low"` — not `"unknown"` — because its windowed count is defaulted to 0,
while `collection_needed` assigns the same can `"unknown"` for the same
absent windowed count. -/
theorem list_trashcans_absent_low_cex :
    exStoreC3.detections = [] ∧
    (list_trashcans exStoreC3 0 0 50 7 50 20 "total_desc" none none none).map
      (fun i => (i.trashcan_id, i.current_objects, i.status)) = [(1, 0, "low")] ∧
    (collection_needed exStoreC3 0 none "status" 7 50 20).map
      (fun i => (i.trashcan_id, i.detection_count, i.status)) =
      [(1, (none : Option Nat), "unknown")] := by
  refine ⟨rfl, ?_, ?_⟩
  · have h1 : list_trashcans exStoreC3 0 0 50 7 50 20 "total_desc" none none none =
        ((sortListItems "total_desc"
          [listItemOf exStoreC3 (0 - (7 : Int) * 86400) 50 20 exCan]).drop 0).take 50 := rfl
    rw [h1, sortListItems_singleton]
    rfl
  · have h2 : collection_needed exStoreC3 0 none "status" 7 50 20 =
        sortCollectionItems "status"
          [collectionItemOf exStoreC3 (0 - (7 : Int) * 86400) 7 50 20 exCan] := rfl
    rw [h2, sortCollectionItems_singleton]
    rfl

/-- C3 (amended): in `collection_needed`, a non-deleted can with no windowed
detections gets an absent `detection_count` and status `"unknown"`, and a
counted value of exactly zero never occurs there (group-by rows are absent
instead); in `list_trashcans`, the absent windowed count is defaulted to 0,
so the same can gets `current_objects = 0` and status `"low"`, and the
status `"unknown"` is never assigned by `list_trashcans`. -/
theorem windowed_absent_status (s : Store) (now : Int) (wd : Nat) (ft mt : Int)
    (r : TrashCanRow) (hr : r ∈ s.trashcans) (hdel : r.is_deleted = false)
    (hw : windowedCount s (now - (wd : Int) * 86400) r.trashcan_id = 0)
    (hft : 0 < ft) (hmt : 0 < mt) :
    (∃ item ∈ collection_needed s now none "status" wd ft mt,
      item.trashcan_id = r.trashcan_id ∧ item.detection_count = none ∧
      item.status = "unknown") ∧
    (∃ item ∈ list_trashcans_items s now wd ft mt "total_desc" none none none,
      item.trashcan_id = r.trashcan_id ∧ item.current_objects = 0 ∧
      item.status = "low") ∧
    (∀ (now2 : Int) (off lim wd2 : Nat) (ft2 mt2 : Int) (sort2 : String)
      (onf : Option Bool) (city name : Option String),
      ∀ item ∈ list_trashcans s now2 off lim wd2 ft2 mt2 sort2 onf city name,
        item.status ≠ "unknown") ∧
    (∀ (now2 : Int) (stF : Option String) (sort2 : String) (wd2 : Nat) (ft2 mt2 : Int),
      ∀ item ∈ collection_needed s now2 stF sort2 wd2 ft2 mt2,
        item.detection_count ≠ some 0) := by
  have hrf : r ∈ s.trashcans.filter (fun x => !x.is_deleted) :=
    List.mem_filter.mpr ⟨hr, by simp [hdel]⟩
  refine ⟨?_, ?_, ?_, ?_⟩
  · refine ⟨collectionItemOf s (now - (wd : Int) * 86400) wd ft mt r, ?_, rfl, ?_, ?_⟩
    · show _ ∈ sortCollectionItems "status"
        ((s.trashcans.filter (fun x => !x.is_deleted)).filterMap (fun row =>
          some (collectionItemOf s (now - (wd : Int) * 86400) wd ft mt row)))
      exact mem_sortCollectionItems.mpr (List.mem_filterMap.mpr ⟨r, hrf, rfl⟩)
    · show windowedLookup s (now - (wd : Int) * 86400) r.trashcan_id = none
      unfold windowedLookup
      simp [hw]
    · show compute_status ft mt
        ((windowedLookup s (now - (wd : Int) * 86400) r.trashcan_id).map (fun n => (n : Int))) =
        "unknown"
      unfold windowedLookup
      simp [hw, compute_status]
  · refine ⟨listItemOf s (now - (wd : Int) * 86400) ft mt r, ?_, rfl, ?_, ?_⟩
    · show _ ∈ sortListItems "total_desc"
        ((s.trashcans.filter (fun x => !x.is_deleted)).filterMap (fun row =>
          if matchesOnline none row && matchesCity none row && matchesName none row then
            some (listItemOf s (now - (wd : Int) * 86400) ft mt row)
          else none))
      exact mem_sortListItems.mpr (List.mem_filterMap.mpr ⟨r, hrf, rfl⟩)
    · show windowedCount s (now - (wd : Int) * 86400) r.trashcan_id = 0
      exact hw
    · show compute_status ft mt
        (some ((windowedCount s (now - (wd : Int) * 86400) r.trashcan_id : Nat) : Int)) = "low"
      rw [hw]
      show (if (0 : Int) ≥ ft then "full" else if (0 : Int) ≥ mt then "medium" else "low") = "low"
      rw [if_neg (by omega), if_neg (by omega)]
  · intro now2 off lim wd2 ft2 mt2 sort2 onf city name item hmem
    have hmem1 : item ∈ list_trashcans_items s now2 wd2 ft2 mt2 sort2 onf city name :=
      ((List.take_sublist lim _).trans (List.drop_sublist off _)).subset hmem
    have hmem2 : item ∈ (s.trashcans.filter (fun x => !x.is_deleted)).filterMap (fun row =>
        if matchesOnline onf row && matchesCity city row && matchesName name row then
          some (listItemOf s (now2 - (wd2 : Int) * 86400) ft2 mt2 row)
        else none) := mem_sortListItems.mp hmem1
    obtain ⟨row, hrow, hfr⟩ := List.mem_filterMap.mp hmem2
    by_cases hcond : (matchesOnline onf row && matchesCity city row &&
        matchesName name row) = true
    · rw [if_pos hcond] at hfr
      have : item = listItemOf s (now2 - (wd2 : Int) * 86400) ft2 mt2 row := by
        injection hfr.symm
      rw [this]
      exact compute_status_some_ne_unknown ft2 mt2 _
    · rw [if_neg hcond] at hfr
      exact absurd hfr (by simp)
  · intro now2 stF sort2 wd2 ft2 mt2 item hmem
    have hmem2 : item ∈ (s.trashcans.filter (fun x => !x.is_deleted)).filterMap (fun row =>
        match pyTruthy stF with
        | some f =>
          if (collectionItemOf s (now2 - (wd2 : Int) * 86400) wd2 ft2 mt2 row).status ≠ f
          then none
          else some (collectionItemOf s (now2 - (wd2 : Int) * 86400) wd2 ft2 mt2 row)
        | none => some (collectionItemOf s (now2 - (wd2 : Int) * 86400) wd2 ft2 mt2 row)) :=
      mem_sortCollectionItems.mp hmem
    obtain ⟨row, hrow, hfr⟩ := List.mem_filterMap.mp hmem2
    have hitem : item = collectionItemOf s (now2 - (wd2 : Int) * 86400) wd2 ft2 mt2 row := by
      rcases hstf : pyTruthy stF with _ | f <;> rw [hstf] at hfr <;> simp only [] at hfr
      · injection hfr.symm
      · by_cases hne : (collectionItemOf s (now2 - (wd2 : Int) * 86400) wd2 ft2 mt2 row).status ≠ f
        · rw [if_pos hne] at hfr
          exact absurd hfr (by simp)
        · rw [if_neg hne] at hfr
          injection hfr.symm
    rw [hitem]
    show windowedLookup s (now2 - (wd2 : Int) * 86400) row.trashcan_id ≠ some 0
    unfold windowedLookup
    by_cases hz : windowedCount s (now2 - (wd2 : Int) * 86400) row.trashcan_id = 0
    · simp [hz]
    · simp only [hz, if_neg]
      intro hcon
      exact hz (by injection hcon)

/-- Witness for C3 (amended): the single active, detection-free can of
`exStoreC3` appears as `unknown` with an absent count in `collection_needed`
and as `low` with count 0 in the catalog item list. -/
theorem windowed_absent_status_witness :
    exCan ∈ exStoreC3.trashcans ∧ exCan.is_deleted = false ∧
    windowedCount exStoreC3 (0 - (7 : Int) * 86400) exCan.trashcan_id = 0 ∧
    (∃ item ∈ collection_needed exStoreC3 0 none "status" 7 50 20,
      item.trashcan_id = exCan.trashcan_id ∧ item.detection_count = none ∧
      item.status = "unknown") ∧
    (∃ item ∈ list_trashcans_items exStoreC3 0 7 50 20 "total_desc" none none none,
      item.trashcan_id = exCan.trashcan_id ∧ item.current_objects = 0 ∧
      item.status = "low") := by
  have h := windowed_absent_status exStoreC3 0 7 50 20 exCan (by decide) (by decide)
    (by rfl) (by decide) (by decide)
  exact ⟨by decide, by decide, by rfl, h.1, h.2.1⟩

/-- Counterexample to C4 as stated: in a store whose only trash can is
soft-deleted, that can's raw detections still contribute to the global
dashboard summary totals (`total_events`, `total_objects`, `by_type`) and to
the period stats `by_city` — those aggregations never filter on
`is_deleted`. -/
theorem soft_deleted_in_global_stats_cex :
    (∀ r ∈ exStoreDel.trashcans, r.is_deleted = true) ∧
    (dashboard_summary exStoreDel).total_events = 1 ∧
    (dashboard_summary exStoreDel).total_objects = 1 ∧
    (dashboard_summary exStoreDel).by_type = [("Plastic", 1)] ∧
    (dashboard_stats exStoreDel 10 "week" (some 10) (some 10)).by_city =
      [(some "Seoul", 1)] := by
  refine ⟨by decide, rfl, rfl, rfl, rfl⟩

/-- C4 (amended): a trash can all of whose rows with a given id are
soft-deleted contributes no item to the catalog list, the locations list, or
the collection-priority list, and its per-trashcan summary answers not-found;
its row stays in the store (these are read-only views). The global dashboard
summary totals and period stats, however, keep counting its raw detections
(see the counterexample). -/
theorem soft_deleted_excluded (s : Store) (tid : Nat)
    (hall : ∀ r ∈ s.trashcans, r.trashcan_id = tid → r.is_deleted = true) :
    (∀ (now : Int) (off lim wd : Nat) (ft mt : Int) (sort : String) (onf : Option Bool)
      (city name : Option String),
      ∀ item ∈ list_trashcans s now off lim wd ft mt sort onf city name,
        item.trashcan_id ≠ tid) ∧
    (∀ (off lim : Nat) (city name : Option String),
      ∀ item ∈ trashcan_locations s off lim city name, item.trashcan_id ≠ tid) ∧
    (∀ (now : Int) (wd : Nat) (ft mt : Int),
      trashcan_summary s now wd ft mt tid = .ok none) ∧
    (∀ (now : Int) (stF : Option String) (sort : String) (wd : Nat) (ft mt : Int),
      ∀ item ∈ collection_needed s now stF sort wd ft mt, item.trashcan_id ≠ tid) := by
  have hnotdel : ∀ row ∈ s.trashcans.filter (fun x => !x.is_deleted),
      row.trashcan_id ≠ tid := by
    intro row hrow heq
    obtain ⟨hmem, hnd⟩ := List.mem_filter.mp hrow
    rw [hall row hmem heq] at hnd
    simp at hnd
  refine ⟨?_, ?_, ?_, ?_⟩
  · intro now off lim wd ft mt sort onf city name item hmem
    have hmem1 : item ∈ list_trashcans_items s now wd ft mt sort onf city name :=
      ((List.take_sublist lim _).trans (List.drop_sublist off _)).subset hmem
    have hmem2 : item ∈ (s.trashcans.filter (fun x => !x.is_deleted)).filterMap (fun row =>
        if matchesOnline onf row && matchesCity city row && matchesName name row then
          some (listItemOf s (now - (wd : Int) * 86400) ft mt row)
        else none) := mem_sortListItems.mp hmem1
    obtain ⟨row, hrow, hfr⟩ := List.mem_filterMap.mp hmem2
    by_cases hcond : (matchesOnline onf row && matchesCity city row &&
        matchesName name row) = true
    · rw [if_pos hcond] at hfr
      have hit : item = listItemOf s (now - (wd : Int) * 86400) ft mt row := by
        injection hfr.symm
      rw [hit]
      exact hnotdel row hrow
    · rw [if_neg hcond] at hfr
      exact absurd hfr (by simp)
  · intro off lim city name item hmem
    have hmem1 : item ∈ s.trashcans.filterMap (fun row =>
        match row.trashcan_latitude, row.trashcan_longitude with
        | some lat, some lon =>
          if !row.is_deleted && matchesCity city row && matchesName name row then
            some ⟨row.trashcan_id, row.trashcan_name, row.trashcan_city,
              row.address_detail, lat, lon⟩
          else none
        | _, _ => none) :=
      ((List.take_sublist lim _).trans (List.drop_sublist off _)).subset hmem
    obtain ⟨row, hrow, hfr⟩ := List.mem_filterMap.mp hmem1
    rcases hlat : row.trashcan_latitude with _ | lat <;>
      rcases hlon : row.trashcan_longitude with _ | lon <;>
      rw [hlat, hlon] at hfr <;> simp only [] at hfr
    · exact absurd hfr (by simp)
    · exact absurd hfr (by simp)
    · exact absurd hfr (by simp)
    · by_cases hcond : (!row.is_deleted && matchesCity city row &&
          matchesName name row) = true
      · rw [if_pos hcond] at hfr
        have hit : item = (⟨row.trashcan_id, row.trashcan_name, row.trashcan_city,
            row.address_detail, lat, lon⟩ : LocationItem) := by
          injection hfr.symm
        rw [hit]
        intro heq
        have hnd : row.is_deleted = true := hall row hrow heq
        simp [hnd] at hcond
      · rw [if_neg hcond] at hfr
        exact absurd hfr (by simp)
  · intro now wd ft mt
    unfold trashcan_summary
    have hnil : s.trashcans.filter (fun t => t.trashcan_id == tid && !t.is_deleted) = [] := by
      rw [List.filter_eq_nil_iff]
      intro a ha
      simp only [Bool.and_eq_true, beq_iff_eq, Bool.not_eq_eq_eq_not, Bool.not_true, not_and]
      intro heq
      rw [hall a ha heq]
      simp
    rw [one_or_none_none_iff.mpr hnil]
  · intro now stF sort wd ft mt item hmem
    have hmem2 : item ∈ (s.trashcans.filter (fun x => !x.is_deleted)).filterMap (fun row =>
        match pyTruthy stF with
        | some f =>
          if (collectionItemOf s (now - (wd : Int) * 86400) wd ft mt row).status ≠ f
          then none
          else some (collectionItemOf s (now - (wd : Int) * 86400) wd ft mt row)
        | none => some (collectionItemOf s (now - (wd : Int) * 86400) wd ft mt row)) :=
      mem_sortCollectionItems.mp hmem
    obtain ⟨row, hrow, hfr⟩ := List.mem_filterMap.mp hmem2
    have hit : item = collectionItemOf s (now - (wd : Int) * 86400) wd ft mt row := by
      rcases hstf : pyTruthy stF with _ | f <;> rw [hstf] at hfr <;> simp only [] at hfr
      · injection hfr.symm
      · by_cases hne : (collectionItemOf s (now - (wd : Int) * 86400) wd ft mt row).status ≠ f
        · rw [if_pos hne] at hfr
          exact absurd hfr (by simp)
        · rw [if_neg hne] at hfr
          injection hfr.symm
    rw [hit]
    exact hnotdel row hrow

/-- Witness for C4 (amended): in `exStoreDel` every row carrying id 1 is
soft-deleted, the per-can summary answers not-found, and no listing item
carries id 1. -/
theorem soft_deleted_excluded_witness :
    (∀ r ∈ exStoreDel.trashcans, r.trashcan_id = 1 → r.is_deleted = true) ∧
    trashcan_summary exStoreDel 0 7 50 20 1 = .ok none ∧
    (∀ item ∈ collection_needed exStoreDel 0 none "status" 7 50 20,
      item.trashcan_id ≠ 1) ∧
    (∀ item ∈ list_trashcans exStoreDel 0 0 50 7 50 20 "total_desc" none none none,
      item.trashcan_id ≠ 1) := by
  have h := soft_deleted_excluded exStoreDel 1 (by decide)
  exact ⟨by decide, h.2.2.1 0 7 50 20,
    fun item hmem => h.2.2.2 0 none "status" 7 50 20 item hmem,
    fun item hmem => h.1 0 0 50 7 50 20 "total_desc" none none none item hmem⟩

end TrashAPI
